/-
Verification of the MCP compliance harness (compliance/python/src/server.py
and client.py) through a shallow embedding in Lean 4.

Python dicts are modelled as association lists whose operations keep keys
unique (lookup by key, insert replaces the key, erase removes the key);
mutation of a state record aliased from the store is modelled by an explicit
write-back of the updated record.  Handlers that consult the function
attribute _current_client_id receive that attribute as an explicit
Option String argument; the source never assigns the attribute, which is
recorded by the definition handlerClientIdAttr below.  External
collaborators (the math library, the Python eval builtin, the elicitation
round-trip and the transport) are passed in as explicit function
parameters, mirroring the call sites.
-/
import Mathlib

namespace MCP

/-! ## Dictionaries (Python dict as a key-unique association list) -/

def dictGet {κ α : Type} [DecidableEq κ] (k : κ) : List (κ × α) → Option α
  | [] => none
  | (k', v) :: rest => if k' = k then some v else dictGet k rest

def dictErase {κ α : Type} [DecidableEq κ] (k : κ) : List (κ × α) → List (κ × α)
  | [] => []
  | (k', v) :: rest =>
      if k' = k then dictErase k rest else (k', v) :: dictErase k rest

def dictInsert {κ α : Type} [DecidableEq κ] (k : κ) (v : α) (l : List (κ × α)) :
    List (κ × α) :=
  (k, v) :: dictErase k l

theorem dictGet_dictErase_self {κ α : Type} [DecidableEq κ] (k : κ)
    (l : List (κ × α)) : dictGet k (dictErase k l) = none := by
  induction l with
  | nil => rfl
  | cons p rest ih =>
      obtain ⟨k', v⟩ := p
      by_cases h : k' = k
      · simp [dictErase, h, ih]
      · simp [dictErase, dictGet, h, ih]

theorem dictGet_dictErase_ne {κ α : Type} [DecidableEq κ] {k c : κ}
    (l : List (κ × α)) (h : c ≠ k) : dictGet c (dictErase k l) = dictGet c l := by
  induction l with
  | nil => rfl
  | cons p rest ih =>
      obtain ⟨k', v⟩ := p
      by_cases hk : k' = k
      · have hne : k' ≠ c := by
          intro hc
          exact h (hc ▸ hk)
        simp [dictErase, dictGet, hk, hne, Ne.symm h, ih]
      · simp only [dictErase, hk, if_false, dictGet]
        by_cases hc : k' = c
        · simp [hc]
        · simp [hc, ih]

theorem dictGet_dictInsert_self {κ α : Type} [DecidableEq κ] (k : κ) (v : α)
    (l : List (κ × α)) : dictGet k (dictInsert k v l) = some v := by
  simp [dictInsert, dictGet]

theorem dictGet_dictInsert_ne {κ α : Type} [DecidableEq κ] {k c : κ} (v : α)
    (l : List (κ × α)) (h : c ≠ k) :
    dictGet c (dictInsert k v l) = dictGet c l := by
  have hk : k ≠ c := fun hc => h hc.symm
  simp [dictInsert, dictGet, hk, dictGet_dictErase_ne l h]

/-! ## Per-client state store (server.py) -/

/-- One per-client state record, with the defaults created by
get_client_state in server.py. -/
structure ClientState where
  trig_allowed : Bool
  special_number : Int
  files : List (String × String)
deriving DecidableEq

/-- The fresh record get_client_state creates on first access. -/
def defaultClientState : ClientState :=
  { trig_allowed := false
    special_number := 42
    files := [("/readme.txt", "Initial readme content"),
              ("/watched.txt", "Initial watched content"),
              ("/test/static.txt", "Static test file content")] }

/-- The process-wide client_states dict of server.py. -/
def ClientStates : Type := List (String × ClientState)

/-- get_client_state: return the existing record, or create and insert the
default record on first reference.  The (record, updated store) pair models
the Python aliasing of the stored dict value. -/
def get_client_state (client_id : String) (states : ClientStates) :
    ClientState × ClientStates :=
  match dictGet client_id states with
  | some s => (s, states)
  | none => (defaultClientState, dictInsert client_id defaultClientState states)

/-- getattr(handler, _current_client_id, the string default). -/
def resolveClientId (attr : Option String) : String := attr.getD "default"

/-- The _current_client_id attribute found on a handler function of
server.py: no statement in the source ever assigns this attribute on any
handler, so the lookup misses for every handler name. -/
def handlerClientIdAttr : String → Option String := fun _ => none

/-- The client identity the server resolves when handler h runs on behalf of
the externally connected client cid: server.py never transfers cid into the
handler attribute before dispatch, so the resolution ignores cid. -/
def resolvedIdentityFor (_cid : String) (h : String) : String :=
  resolveClientId (handlerClientIdAttr h)

theorem dictGet_get_client_state_ne (cid c : String) (states : ClientStates)
    (h : c ≠ cid) :
    dictGet c (get_client_state cid states).2 = dictGet c states := by
  unfold get_client_state
  cases hd : dictGet cid states with
  | some s => simp
  | none => simp [dictGet_dictInsert_ne _ _ h]

theorem get_client_state_found (cid : String) (states : ClientStates)
    (s : ClientState) (h : dictGet cid states = some s) :
    get_client_state cid states = (s, states) := by
  simp [get_client_state, h]

theorem get_client_state_fresh (cid : String) (states : ClientStates)
    (h : dictGet cid states = none) :
    get_client_state cid states =
      (defaultClientState, dictInsert cid defaultClientState states) := by
  simp [get_client_state, h]

/-! ## Errors and results -/

/-- The ErrorData payload of an McpError raise site: code and message. -/
structure ErrorData where
  code : Int
  message : String
deriving DecidableEq

/-- Outcome of a handler: a value, or a raised McpError. -/
def Result (α : Type) : Type := Except ErrorData α

instance {α : Type} [DecidableEq α] : DecidableEq (Result α) := fun a b =>
  match a, b with
  | .error e1, .error e2 =>
      if h : e1 = e2 then isTrue (congrArg Except.error h)
      else isFalse fun hc => h (Except.error.inj hc)
  | .error _, .ok _ => isFalse fun hc => Except.noConfusion hc
  | .ok _, .error _ => isFalse fun hc => Except.noConfusion hc
  | .ok v1, .ok v2 =>
      if h : v1 = v2 then isTrue (congrArg Except.ok h)
      else isFalse fun hc => h (Except.ok.inj hc)

/-- The raised error code of a result, if the result is an error. -/
def errCode {α : Type} : Result α → Option Int
  | .error e => some e.code
  | .ok _ => none

/-! ## Substring test (the Python in operator on strings) -/

def charListHeadMatch : List Char → List Char → Bool
  | [], _ => true
  | _ :: _, [] => false
  | a :: as, b :: bs => a = b && charListHeadMatch as bs

def charListContains (needle : List Char) : List Char → Bool
  | [] => charListHeadMatch needle []
  | b :: bs => charListHeadMatch needle (b :: bs) || charListContains needle bs

/-- sub in s, Python substring containment. -/
def strContains (s sub : String) : Bool := charListContains sub.data s.data

/-! ## CalcServer handlers (server.py, create_calc_server) -/

/-- Tool add: pure sum. -/
def add (a b : Int) : Int := a + b

/-- One elicitation exchange as issued by ctx.elicit: the prompt message and
the requested schema, a record of (field name, field type) pairs. -/
structure ElicitRequest where
  message : String
  schemaFields : List (String × String)
deriving DecidableEq

/-- Resolution of an elicitation exchange: accept with the validated integer
payload b, decline, or cancel. -/
inductive ElicitAction where
  | accept (b : Int)
  | decline
  | cancel
deriving DecidableEq

/-- The single elicitation request ambiguous_add issues: the prompt for b
and the BInput schema with one integer field b. -/
def ambiguous_add_request (a : Int) : ElicitRequest :=
  { message := "Please provide the second number (b) to add to " ++ toString a ++ ":"
    schemaFields := [("b", "integer")] }

/-- Tool ambiguous_add: issues one elicitation exchange via the external
round-trip respond; on accept returns a + b, on decline raises code -32000,
on cancel raises code -32001.  The second component is the list of
elicitation requests issued during the call. -/
def ambiguous_add (a : Int) (respond : ElicitRequest → ElicitAction) :
    Result Int × List ElicitRequest :=
  let req := ambiguous_add_request a
  let res : Result Int :=
    match respond req with
    | .accept b => .ok (a + b)
    | .decline => .error ⟨-32000, "User declined to provide input for parameter b"⟩
    | .cancel => .error ⟨-32001, "User cancelled the elicitation request"⟩
  (res, [req])

/-- Tool cos: gated on the trig_allowed flag of the resolved client state;
math.cos is the external parameter mathCos. -/
def cos (mathCos : ℚ → ℚ) (attr : Option String) (x : ℚ)
    (states : ClientStates) : Result ℚ × ClientStates :=
  let client_id := resolveClientId attr
  let p := get_client_state client_id states
  if !p.1.trig_allowed then
    (.error ⟨-32603, "Trigonometric functions are disabled"⟩, p.2)
  else
    (.ok (mathCos x), p.2)

/-- Tool sin: same gate as cos; math.sin is the external parameter mathSin. -/
def sin (mathSin : ℚ → ℚ) (attr : Option String) (x : ℚ)
    (states : ClientStates) : Result ℚ × ClientStates :=
  let client_id := resolveClientId attr
  let p := get_client_state client_id states
  if !p.1.trig_allowed then
    (.error ⟨-32603, "Trigonometric functions are disabled"⟩, p.2)
  else
    (.ok (mathSin x), p.2)

/-- Tool set_trig_allowed: writes the trig_allowed flag of the resolved
client state and returns a confirmation string. -/
def set_trig_allowed (attr : Option String) (allowed : Bool)
    (states : ClientStates) : Result String × ClientStates :=
  let client_id := resolveClientId attr
  let p := get_client_state client_id states
  let s := { p.1 with trig_allowed := allowed }
  (.ok ("Trigonometric functions " ++ (if allowed then "enabled" else "disabled")),
   dictInsert client_id s p.2)

/-- Tool write_special_number: writes the special_number field of the
resolved client state. -/
def write_special_number (attr : Option String) (value : Int)
    (states : ClientStates) : Result String × ClientStates :=
  let client_id := resolveClientId attr
  let p := get_client_state client_id states
  let s := { p.1 with special_number := value }
  (.ok ("Special number updated to " ++ toString value),
   dictInsert client_id s p.2)

/-- One ctx.report_progress event: progress, total and message. -/
structure ProgressEvent where
  progress : Nat
  total : Nat
  message : String
deriving DecidableEq

/-- Tool eval_with_sampling: reports 0 percent progress, evaluates the two
known expressions by fixed lookup, falls back to the external genericEval
(Python float(eval(..)), none modelling a raised exception) otherwise, and
reports 100 percent progress only on success.  The second component is the
emitted progress-event list in emission order. -/
def eval_with_sampling (genericEval : String → Option ℚ) (expression : String) :
    Result ℚ × List ProgressEvent :=
  let start : ProgressEvent := { progress := 0, total := 100, message := "Starting evaluation" }
  let result? : Option ℚ :=
    if expression = "2 + 2 * 3" then some 8
    else if expression = "(2 + 3) * (4 + 5)" then some 45
    else genericEval expression
  match result? with
  | some r =>
      (.ok r, [start, { progress := 100, total := 100, message := "Evaluation complete" }])
  | none =>
      (.error ⟨-32603, "Cannot evaluate expression: " ++ expression⟩, [start])

/-- Resource resource://special-number: reads the special_number of the
resolved client state as text. -/
def special_number_resource (attr : Option String) (states : ClientStates) :
    Result String × ClientStates :=
  let client_id := resolveClientId attr
  let p := get_client_state client_id states
  (.ok (toString p.1.special_number), p.2)

/-! ## FileServer handlers (server.py, create_file_server) -/

/-- Tool write_file: upserts path into the files map of the resolved client
state. -/
def write_file (attr : Option String) (path content : String)
    (states : ClientStates) : Result String × ClientStates :=
  let client_id := resolveClientId attr
  let p := get_client_state client_id states
  let s := { p.1 with files := dictInsert path content p.1.files }
  (.ok ("File " ++ path ++ " written successfully"), dictInsert client_id s p.2)

/-- Tool delete_file: removes path from the files map of the resolved client
state, raising code -32602 with a file-not-found message when absent. -/
def delete_file (attr : Option String) (path : String)
    (states : ClientStates) : Result String × ClientStates :=
  let client_id := resolveClientId attr
  let p := get_client_state client_id states
  match dictGet path p.1.files with
  | some _ =>
      let s := { p.1 with files := dictErase path p.1.files }
      (.ok ("File " ++ path ++ " deleted successfully"), dictInsert client_id s p.2)
  | none =>
      (.error ⟨-32602, "File not found: " ++ path⟩, p.2)

/-- Templated resource file:///(path): reads the files map of the resolved
client state, raising code -32602 with a file-not-found message when absent. -/
def file_resource (attr : Option String) (path : String)
    (states : ClientStates) : Result String × ClientStates :=
  let client_id := resolveClientId attr
  let p := get_client_state client_id states
  match dictGet path p.1.files with
  | some content => (.ok content, p.2)
  | none =>
      (.error ⟨-32602, "File not found: " ++ path⟩, p.2)

/-- Prompt summarize_file: returns a summary request embedding the file
content, or a soft not-found text (a normal result, not an error). -/
def summarize_file_prompt (attr : Option String) (path : String)
    (states : ClientStates) : Result String × ClientStates :=
  let client_id := resolveClientId attr
  let p := get_client_state client_id states
  match dictGet path p.1.files with
  | some content =>
      (.ok ("Please summarize the following file content from " ++ path
            ++ ":\n\n" ++ content), p.2)
  | none => (.ok ("File not found: " ++ path), p.2)

/-! ## ErrorServer handlers (server.py, create_error_server) -/

/-- Tool always_error: unconditionally raises code -32602. -/
def always_error : Result String :=
  .error ⟨-32602, "This tool always fails for testing purposes"⟩

/-- Resource error://not-found: unconditionally raises code -32602. -/
def not_found_resource : Result String :=
  .error ⟨-32602, "This resource is designed to always fail"⟩

/-! ## Client-side elicitation responders (client.py) -/

/-- Python str.lower() on the ASCII prompt messages: lowercase every
character. -/
def strToLower (s : String) : String := ⟨s.data.map Char.toLower⟩

/-- The ElicitResult a client responder returns: accept carries the content
payload of the single integer field b. -/
inductive ElicitResponse where
  | accept (b : Int)
  | decline
deriving DecidableEq

/-- Responder for scenario 2: accepts with content b = 20 whenever the
lowercased prompt message contains the string b, declines otherwise. -/
def elicitation_handler_for_scenario_2 (message : String) : ElicitResponse :=
  if strContains (strToLower message) "b" then .accept 20 else .decline

/-- Responder for scenario 24: always declines. -/
def elicitation_handler_for_scenario_24 (_message : String) : ElicitResponse :=
  .decline

/-- The elicitation callback run_scenario registers on the session, as a
function of the scenario id: scenario 2 and scenario 24 get their dedicated
responders, every other scenario registers none. -/
def elicitation_callback_for (scenario_id : Int) :
    Option (String → ElicitResponse) :=
  if scenario_id = 2 then some elicitation_handler_for_scenario_2
  else if scenario_id = 24 then some elicitation_handler_for_scenario_24
  else none

/-! ## Scenario catalog and executor (client.py) -/

/-- One catalog entry of scenarios/data.json: id, description and the
declared participating client ids. -/
structure Scenario where
  id : Int
  description : String
  client_ids : List String
deriving DecidableEq

/-- The linear search of run_scenario and main over the catalog: the first
scenario whose id matches, if any. -/
def findScenario (sid : Int) : List Scenario → Option Scenario
  | [] => none
  | s :: rest => if s.id = sid then some s else findScenario sid rest

/-- Observable outcome of one run_scenario invocation: the boolean result,
the protocol calls performed over the connection, and the error lines
printed to stderr. -/
structure RunResult where
  success : Bool
  calls : List String
  errors : List String
deriving DecidableEq

/-- run_scenario: look the scenario up in the catalog, check the client id
against the declared participants, and only then connect and execute the
scenario body (the body, which performs the protocol calls over the external
connection, is the parameter executeBody). -/
def run_scenario (scenarios : List Scenario) (sid : Int) (cid : String)
    (executeBody : Scenario → RunResult) : RunResult :=
  match findScenario sid scenarios with
  | none =>
      { success := false
        calls := []
        errors := ["Error: Scenario " ++ toString sid ++ " not found"] }
  | some s =>
      if s.client_ids.contains cid then executeBody s
      else
        { success := false
          calls := []
          errors := ["Error: Client ID \x27" ++ cid ++ "\x27 not in scenario "
                     ++ toString sid] }

/-- main of client.py: looks the scenario up (exit 1 when absent), runs
run_scenario, and exits 0 on success and 1 otherwise. -/
def client_main (scenarios : List Scenario) (sid : Int) (cid : String)
    (executeBody : Scenario → RunResult) : Nat :=
  match findScenario sid scenarios with
  | none => 1
  | some _ =>
      if (run_scenario scenarios sid cid executeBody).success then 0 else 1

/-! ## Scenario 25: concurrent add calls (client.py, execute_scenario_25) -/

/-- The three add calls of scenario 25 in issuance order, each tagged with
its request id: add(1,2), add(3,4), add(5,6). -/
def scenario25_requests : List (Nat × Int × Int) :=
  [(0, 1, 2), (1, 3, 4), (2, 5, 6)]

/-- The response the server hands back for one tagged add request. -/
def responseFor (r : Nat × Int × Int) : Nat × Int :=
  (r.1, add r.2.1 r.2.2)

/-- Modelled from the spec: the transport correlation mechanism (client.py
relies on asyncio.gather and the session request-id pairing, both external
to this repository) matches each delivered response to its request id and
hands the caller the results in request-issuance order; none signals a
request that never received a response. -/
def deliverInOrder (requests : List (Nat × Int × Int))
    (completed : List (Nat × Int)) : Option (List Int) :=
  match requests with
  | [] => some []
  | r :: rest =>
      match dictGet r.1 completed, deliverInOrder rest completed with
      | some v, some vs => some (v :: vs)
      | _, _ => none

/-- One full scenario-25 exchange: the server completes the three add calls
in an arbitrary internal order completionOrder, and the transport pairing
reassembles the responses into issuance order. -/
def scenario25_run (completionOrder : List (Nat × Int × Int)) :
    Option (List Int) :=
  deliverInOrder scenario25_requests (completionOrder.map responseFor)

/-! ## Helper lemmas: locality of the handler state updates -/

/-- The store after a handler call differs from the store before at most at
the key the string default. -/
def MutatesOnlyDefault (before after : ClientStates) : Prop :=
  ∀ c, c ≠ "default" → dictGet c after = dictGet c before

theorem dictGet_insert_over_gcs (cid c : String) (s : ClientState)
    (states : ClientStates) (h : c ≠ cid) :
    dictGet c (dictInsert cid s (get_client_state cid states).2)
      = dictGet c states := by
  rw [dictGet_dictInsert_ne _ _ h, dictGet_get_client_state_ne _ _ _ h]

theorem cos_local (mc : ℚ → ℚ) (attr : Option String) (x : ℚ)
    (states : ClientStates) (c : String) (h : c ≠ resolveClientId attr) :
    dictGet c (cos mc attr x states).2 = dictGet c states := by
  unfold cos
  cases hb : (get_client_state (resolveClientId attr) states).1.trig_allowed <;>
    simp [hb, dictGet_get_client_state_ne _ _ _ h]

theorem sin_local (ms : ℚ → ℚ) (attr : Option String) (x : ℚ)
    (states : ClientStates) (c : String) (h : c ≠ resolveClientId attr) :
    dictGet c (sin ms attr x states).2 = dictGet c states := by
  unfold sin
  cases hb : (get_client_state (resolveClientId attr) states).1.trig_allowed <;>
    simp [hb, dictGet_get_client_state_ne _ _ _ h]

theorem set_trig_allowed_local (attr : Option String) (allowed : Bool)
    (states : ClientStates) (c : String) (h : c ≠ resolveClientId attr) :
    dictGet c (set_trig_allowed attr allowed states).2 = dictGet c states := by
  unfold set_trig_allowed
  exact dictGet_insert_over_gcs _ _ _ _ h

theorem write_special_number_local (attr : Option String) (v : Int)
    (states : ClientStates) (c : String) (h : c ≠ resolveClientId attr) :
    dictGet c (write_special_number attr v states).2 = dictGet c states := by
  unfold write_special_number
  exact dictGet_insert_over_gcs _ _ _ _ h

theorem write_file_local (attr : Option String) (p content : String)
    (states : ClientStates) (c : String) (h : c ≠ resolveClientId attr) :
    dictGet c (write_file attr p content states).2 = dictGet c states := by
  unfold write_file
  exact dictGet_insert_over_gcs _ _ _ _ h

theorem delete_file_local (attr : Option String) (p : String)
    (states : ClientStates) (c : String) (h : c ≠ resolveClientId attr) :
    dictGet c (delete_file attr p states).2 = dictGet c states := by
  unfold delete_file
  cases hf : dictGet p (get_client_state (resolveClientId attr) states).1.files with
  | some content =>
      simp only [hf]
      exact dictGet_insert_over_gcs _ _ _ _ h
  | none =>
      simp only [hf]
      exact dictGet_get_client_state_ne _ _ _ h

theorem file_resource_local (attr : Option String) (p : String)
    (states : ClientStates) (c : String) (h : c ≠ resolveClientId attr) :
    dictGet c (file_resource attr p states).2 = dictGet c states := by
  unfold file_resource
  cases hf : dictGet p (get_client_state (resolveClientId attr) states).1.files with
  | some content => simp only [hf]; exact dictGet_get_client_state_ne _ _ _ h
  | none => simp only [hf]; exact dictGet_get_client_state_ne _ _ _ h

theorem special_number_resource_local (attr : Option String)
    (states : ClientStates) (c : String) (h : c ≠ resolveClientId attr) :
    dictGet c (special_number_resource attr states).2 = dictGet c states := by
  unfold special_number_resource
  exact dictGet_get_client_state_ne _ _ _ h

theorem summarize_file_prompt_local (attr : Option String) (p : String)
    (states : ClientStates) (c : String) (h : c ≠ resolveClientId attr) :
    dictGet c (summarize_file_prompt attr p states).2 = dictGet c states := by
  unfold summarize_file_prompt
  cases hf : dictGet p (get_client_state (resolveClientId attr) states).1.files with
  | some content => simp only [hf]; exact dictGet_get_client_state_ne _ _ _ h
  | none => simp only [hf]; exact dictGet_get_client_state_ne _ _ _ h

/-! ## Claim C2 -/

/-- Claim C2: server.py never assigns the _current_client_id attribute, so
the getattr lookup of every handler falls back to the string default; every
stateful handler therefore reads and mutates only the shared record of
client_states at the key the string default: mutations leave every other
key of the store unchanged, and the reads of cos and of the special-number
resource are determined by the record at that key. -/
theorem resolved_identity_always_default :
    (∀ h, resolveClientId (handlerClientIdAttr h) = "default") ∧
    (∀ mc x states,
       MutatesOnlyDefault states (cos mc (handlerClientIdAttr "cos") x states).2) ∧
    (∀ ms x states,
       MutatesOnlyDefault states (sin ms (handlerClientIdAttr "sin") x states).2) ∧
    (∀ allowed states, MutatesOnlyDefault states
       (set_trig_allowed (handlerClientIdAttr "set_trig_allowed") allowed states).2) ∧
    (∀ v states, MutatesOnlyDefault states
       (write_special_number (handlerClientIdAttr "write_special_number") v states).2) ∧
    (∀ p content states, MutatesOnlyDefault states
       (write_file (handlerClientIdAttr "write_file") p content states).2) ∧
    (∀ p states, MutatesOnlyDefault states
       (delete_file (handlerClientIdAttr "delete_file") p states).2) ∧
    (∀ p states, MutatesOnlyDefault states
       (file_resource (handlerClientIdAttr "file_resource") p states).2) ∧
    (∀ states, MutatesOnlyDefault states
       (special_number_resource (handlerClientIdAttr "special_number_resource") states).2) ∧
    (∀ p states, MutatesOnlyDefault states
       (summarize_file_prompt (handlerClientIdAttr "summarize_file_prompt") p states).2) ∧
    (∀ mc x states,
       (cos mc (handlerClientIdAttr "cos") x states).1
         = if (get_client_state "default" states).1.trig_allowed then .ok (mc x)
           else .error ⟨-32603, "Trigonometric functions are disabled"⟩) ∧
    (∀ states,
       (special_number_resource (handlerClientIdAttr "special_number_resource") states).1
         = .ok (toString (get_client_state "default" states).1.special_number)) := by
  refine ⟨fun _ => rfl, ?_, ?_, ?_, ?_, ?_, ?_, ?_, ?_, ?_, ?_, ?_⟩
  · exact fun mc x states c h => cos_local mc _ x states c h
  · exact fun ms x states c h => sin_local ms _ x states c h
  · exact fun allowed states c h => set_trig_allowed_local _ allowed states c h
  · exact fun v states c h => write_special_number_local _ v states c h
  · exact fun p content states c h => write_file_local _ p content states c h
  · exact fun p states c h => delete_file_local _ p states c h
  · exact fun p states c h => file_resource_local _ p states c h
  · exact fun states c h => special_number_resource_local _ states c h
  · exact fun p states c h => summarize_file_prompt_local _ p states c h
  · intro mc x states
    unfold cos
    cases hb : (get_client_state "default" states).1.trig_allowed <;>
      simp [resolveClientId, handlerClientIdAttr, hb]
  · intro states
    rfl

/-- Witness for claim C2 at concrete inputs: the resolved identity of cos is
the string default, and a set_trig_allowed call leaves the record of the key
client1 untouched. -/
theorem resolved_identity_always_default_witness :
    resolveClientId (handlerClientIdAttr "cos") = "default" ∧
    dictGet "client1"
        (set_trig_allowed (handlerClientIdAttr "set_trig_allowed") true []).2
      = dictGet "client1" ([] : ClientStates) := by
  refine ⟨resolved_identity_always_default.1 "cos", ?_⟩
  exact resolved_identity_always_default.2.2.2.1 true [] "client1" (by decide)

/-! ## Claim C1 -/

/-- Claim C1 fails on the code: with two distinct connected identities
client1 and client2 on one server process, the server resolves both to the
identity the string default (the attribute is never assigned), so after
client1 executes set_trig_allowed(true) the observation of client2 changes:
the cos call of client2 failed with the trig-disabled error on the initial
store and succeeds after the mutation of client1. -/
theorem cross_client_isolation_violated :
    ("client1" : String) ≠ "client2" ∧
    resolvedIdentityFor "client1" "set_trig_allowed"
      = resolvedIdentityFor "client2" "cos" ∧
    (cos (fun q => q) (handlerClientIdAttr "cos") 0 []).1
      = .error ⟨-32603, "Trigonometric functions are disabled"⟩ ∧
    (cos (fun q => q) (handlerClientIdAttr "cos") 0
        (set_trig_allowed (handlerClientIdAttr "set_trig_allowed") true []).2).1
      = .ok 0 := by
  exact ⟨by decide, rfl, rfl, rfl⟩

/-! ## Claim C3 -/

/-- Claim C3 fails on the code: at concrete inputs, the NotFound raise of
delete_file and the InvalidParams raise of always_error carry the same code
-32602, and the FeatureDisabled raise of cos and the EvaluationError raise
of eval_with_sampling carry the same code -32603, so the four kinds are not
pairwise distinct. -/
theorem error_code_collision :
    errCode (delete_file none "/missing.txt" []).1 = some (-32602) ∧
    errCode always_error = some (-32602) ∧
    errCode (cos (fun q => q) none 0 []).1 = some (-32603) ∧
    errCode (eval_with_sampling (fun _ => none) "oops").1 = some (-32603) := by
  exact ⟨rfl, rfl, rfl, rfl⟩

/-- Claim C3 amended: each error kind carries one stable code at every raise
site, but the kinds are not pairwise distinct: FeatureDisabled (cos, sin)
and EvaluationError (eval_with_sampling) both raise -32603, and
InvalidParams (always_error, the error resource) and NotFound (delete_file,
file_resource) both raise -32602; only the two groups differ from each
other, and the elicitation codes -32000 and -32001 are distinct. -/
theorem error_codes_stable :
    (∀ mc attr x states e, (cos mc attr x states).1 = .error e →
       e = { code := -32603, message := "Trigonometric functions are disabled" }) ∧
    (∀ ms attr x states e, (sin ms attr x states).1 = .error e →
       e = { code := -32603, message := "Trigonometric functions are disabled" }) ∧
    (∀ e, always_error = (.error e : Result String) → e.code = -32602) ∧
    (∀ e, not_found_resource = (.error e : Result String) → e.code = -32602) ∧
    (∀ attr p states e, (delete_file attr p states).1 = .error e →
       e = { code := -32602, message := "File not found: " ++ p }) ∧
    (∀ attr p states e, (file_resource attr p states).1 = .error e →
       e = { code := -32602, message := "File not found: " ++ p }) ∧
    (∀ g ex e, (eval_with_sampling g ex).1 = .error e →
       e = { code := -32603, message := "Cannot evaluate expression: " ++ ex }) ∧
    ((-32603 : Int) ≠ -32602) ∧ ((-32000 : Int) ≠ -32001) := by
  refine ⟨?_, ?_, ?_, ?_, ?_, ?_, ?_, by decide, by decide⟩
  · intro mc attr x states e h
    unfold cos at h
    cases hb : (get_client_state (resolveClientId attr) states).1.trig_allowed <;>
      simp [hb] at h
    exact (Except.error.inj h).symm
  · intro ms attr x states e h
    unfold sin at h
    cases hb : (get_client_state (resolveClientId attr) states).1.trig_allowed <;>
      simp [hb] at h
    exact (Except.error.inj h).symm
  · intro e h
    cases h
    rfl
  · intro e h
    cases h
    rfl
  · intro attr p states e h
    unfold delete_file at h
    cases hf : dictGet p (get_client_state (resolveClientId attr) states).1.files <;>
      simp [hf] at h
    exact (Except.error.inj h).symm
  · intro attr p states e h
    unfold file_resource at h
    cases hf : dictGet p (get_client_state (resolveClientId attr) states).1.files <;>
      simp [hf] at h
    exact (Except.error.inj h).symm
  · intro g ex e h
    unfold eval_with_sampling at h
    cases hr : (if ex = "2 + 2 * 3" then some (8 : ℚ)
                else if ex = "(2 + 3) * (4 + 5)" then some 45
                else g ex) <;> simp [hr] at h
    exact (Except.error.inj h).symm

/-- Witness for the amended claim C3 at a concrete raise: the delete_file
error on an absent path carries code -32602. -/
theorem error_codes_stable_witness :
    ({ code := -32602, message := "File not found: /x" } : ErrorData).code
      = -32602 := by
  have h := error_codes_stable.2.2.2.2.1 none "/x" []
    { code := -32602, message := "File not found: /x" } rfl
  exact h ▸ rfl

/-! ## Claim C4 -/

/-- Claim C4: for every integer a, ambiguous_add issues exactly one
elicitation exchange whose schema is the single integer field b; an
accepting resolution with payload b yields a + b, a declining resolution
raises the stable code -32000 with a message containing the word declined,
and a cancelling resolution raises the distinct stable code -32001. -/
theorem ambiguous_add_spec (a : Int) (respond : ElicitRequest → ElicitAction) :
    (ambiguous_add a respond).2 = [ambiguous_add_request a] ∧
    (ambiguous_add_request a).schemaFields = [("b", "integer")] ∧
    (∀ b, respond (ambiguous_add_request a) = .accept b →
       (ambiguous_add a respond).1 = .ok (a + b)) ∧
    (respond (ambiguous_add_request a) = .decline →
       (ambiguous_add a respond).1
         = .error ⟨-32000, "User declined to provide input for parameter b"⟩ ∧
       strContains "User declined to provide input for parameter b" "declined"
         = true) ∧
    (respond (ambiguous_add_request a) = .cancel →
       (ambiguous_add a respond).1
         = .error ⟨-32001, "User cancelled the elicitation request"⟩) ∧
    ((-32000 : Int) ≠ -32001) := by
  refine ⟨rfl, rfl, ?_, ?_, ?_, by decide⟩
  · intro b hb
    simp [ambiguous_add, hb]
  · intro hd
    refine ⟨?_, by decide⟩
    simp [ambiguous_add, hd]
  · intro hc
    simp [ambiguous_add, hc]

/-- Witness for claim C4: with a = 10 and a declining responder, the call
fails with code -32000 and the declined message. -/
theorem ambiguous_add_spec_witness :
    (ambiguous_add 10 (fun _ => .decline)).1
      = .error ⟨-32000, "User declined to provide input for parameter b"⟩ := by
  exact ((ambiguous_add_spec 10 (fun _ => .decline)).2.2.2.1 rfl).1

/-! ## Claim C5 -/

/-- Claim C5 fails on the code: the responder registered for scenario 2 is
not a constant accept with b = 20; on the prompt message the string hello,
which does not contain the letter b, it declines. -/
theorem scenario2_responder_counterexample :
    elicitation_callback_for 2 = some elicitation_handler_for_scenario_2 ∧
    elicitation_handler_for_scenario_2 "hello" = .decline := by
  exact ⟨rfl, by decide⟩

/-- Claim C5 amended: the responder registration is a pure function of the
scenario id, fixed before the session is established: scenario 2 registers
the handler that accepts with payload b = 20 exactly when the lowercased
prompt message contains the letter b (it accepts the actual ambiguous_add
prompt, but declines a prompt without that letter), scenario 24 registers
the handler that declines every prompt, and every other scenario id
registers no responder. -/
theorem responder_selection (sid : Int) (m : String) :
    elicitation_callback_for 2 = some elicitation_handler_for_scenario_2 ∧
    elicitation_callback_for 24 = some elicitation_handler_for_scenario_24 ∧
    (sid ≠ 2 → sid ≠ 24 → elicitation_callback_for sid = none) ∧
    elicitation_handler_for_scenario_2 (ambiguous_add_request 10).message
      = .accept 20 ∧
    elicitation_handler_for_scenario_2 "hello" = .decline ∧
    elicitation_handler_for_scenario_24 m = .decline := by
  refine ⟨rfl, rfl, ?_, by decide, by decide, rfl⟩
  intro h2 h24
  simp [elicitation_callback_for, h2, h24]

/-- Witness for the amended claim C5 at concrete inputs: scenario 7
registers no responder and the scenario 24 responder declines. -/
theorem responder_selection_witness :
    elicitation_callback_for 7 = none ∧
    elicitation_handler_for_scenario_24 "anything" = .decline := by
  exact ⟨(responder_selection 7 "anything").2.2.1 (by decide) (by decide),
         (responder_selection 7 "anything").2.2.2.2.2⟩

/-! ## Claim C6 -/

/-- Claim C6: for every attribute value (hence every resolved client
identity) and every integer v, writing the special number and then reading
the special-number resource under the same attribute yields the text of v,
and the first read under a fresh identity yields the text 42. -/
theorem special_number_read_after_write (attr : Option String) (v : Int)
    (states : ClientStates) :
    (special_number_resource attr (write_special_number attr v states).2).1
      = .ok (toString v) ∧
    (dictGet (resolveClientId attr) states = none →
       (special_number_resource attr states).1 = .ok "42") := by
  constructor
  · simp only [write_special_number, special_number_resource]
    rw [get_client_state_found _ _ _ (dictGet_dictInsert_self _ _ _)]
  · intro h
    simp [special_number_resource, get_client_state_fresh _ _ h,
          defaultClientState]
    decide

/-- Witness for claim C6: the fresh identity client9 reads 42, and after
writing 7 reads 7. -/
theorem special_number_read_after_write_witness :
    (special_number_resource (some "client9")
        (write_special_number (some "client9") 7 []).2).1 = .ok "7" ∧
    (special_number_resource (some "client9") ([] : ClientStates)).1
      = .ok "42" := by
  exact ⟨(special_number_read_after_write (some "client9") 7 []).1,
         (special_number_read_after_write (some "client9") 7 []).2 rfl⟩

/-! ## Claim C7 -/

theorem get_client_state_snd_self (cid : String) (states : ClientStates) :
    dictGet cid (get_client_state cid states).2
      = some (get_client_state cid states).1 := by
  unfold get_client_state
  cases hd : dictGet cid states with
  | some s => simp [hd]
  | none => simp [hd, dictGet_dictInsert_self]

/-- Claim C7: for every attribute value (hence every resolved client
identity) and path, delete_file on an absent path raises the file-not-found
error and leaves the files map of that identity unchanged; on a present
path it removes the entry, so a subsequent read of the templated file
resource under the same attribute raises the file-not-found error. -/
theorem delete_file_spec (attr : Option String) (p : String)
    (states : ClientStates) :
    (dictGet p (get_client_state (resolveClientId attr) states).1.files = none →
       (delete_file attr p states).1
         = .error ⟨-32602, "File not found: " ++ p⟩ ∧
       (get_client_state (resolveClientId attr)
           (delete_file attr p states).2).1.files
         = (get_client_state (resolveClientId attr) states).1.files) ∧
    (∀ content,
       dictGet p (get_client_state (resolveClientId attr) states).1.files
         = some content →
       (delete_file attr p states).1
         = .ok ("File " ++ p ++ " deleted successfully") ∧
       (file_resource attr p (delete_file attr p states).2).1
         = .error ⟨-32602, "File not found: " ++ p⟩) := by
  constructor
  · intro h
    have hd : delete_file attr p states
        = (.error ⟨-32602, "File not found: " ++ p⟩,
           (get_client_state (resolveClientId attr) states).2) := by
      unfold delete_file
      simp [h]
    rw [hd]
    refine ⟨rfl, ?_⟩
    rw [get_client_state_found _ _ _ (get_client_state_snd_self _ _)]
  · intro content h
    have hd : delete_file attr p states
        = (.ok ("File " ++ p ++ " deleted successfully"),
           dictInsert (resolveClientId attr)
             { (get_client_state (resolveClientId attr) states).1 with
                 files := dictErase p
                   (get_client_state (resolveClientId attr) states).1.files }
             (get_client_state (resolveClientId attr) states).2) := by
      unfold delete_file
      simp [h]
    rw [hd]
    refine ⟨rfl, ?_⟩
    simp only [file_resource]
    rw [get_client_state_found _ _ _ (dictGet_dictInsert_self _ _ _)]
    simp [dictGet_dictErase_self]

/-- Witness for claim C7: deleting the absent path /nope on the initial
store fails with the file-not-found error, and deleting the pre-seeded
/readme.txt makes the subsequent templated read fail with the same error
shape. -/
theorem delete_file_spec_witness :
    (delete_file none "/nope" []).1
      = .error ⟨-32602, "File not found: /nope"⟩ ∧
    (file_resource none "/readme.txt" (delete_file none "/readme.txt" []).2).1
      = .error ⟨-32602, "File not found: /readme.txt"⟩ := by
  refine ⟨((delete_file_spec none "/nope" []).1 (by decide)).1, ?_⟩
  exact ((delete_file_spec none "/readme.txt" []).2
    "Initial readme content" (by decide)).2

/-! ## Claim C8 -/

/-- Claim C8: eval_with_sampling returns exactly 8 for the first known
expression and exactly 45 for the second via fixed lookup, whatever the
external generic evaluator does; any other expression falls back to the
generic evaluator, raising the evaluation error with code -32603 when that
fails; and every successful evaluation emits the 0 percent progress event
before and the 100 percent progress event after the computation. -/
theorem eval_with_sampling_spec (g : String → Option ℚ) (e : String) :
    (eval_with_sampling g "2 + 2 * 3").1 = .ok 8 ∧
    (eval_with_sampling g "(2 + 3) * (4 + 5)").1 = .ok 45 ∧
    (e ≠ "2 + 2 * 3" → e ≠ "(2 + 3) * (4 + 5)" →
       (g e = none →
          (eval_with_sampling g e).1
            = .error ⟨-32603, "Cannot evaluate expression: " ++ e⟩ ∧
          (eval_with_sampling g e).2 = [⟨0, 100, "Starting evaluation"⟩]) ∧
       (∀ q, g e = some q → (eval_with_sampling g e).1 = .ok q)) ∧
    (∀ q, (eval_with_sampling g e).1 = .ok q →
       (eval_with_sampling g e).2
         = [⟨0, 100, "Starting evaluation"⟩,
            ⟨100, 100, "Evaluation complete"⟩]) := by
  refine ⟨rfl, rfl, ?_, ?_⟩
  · intro h1 h2
    constructor
    · intro hg
      refine ⟨?_, ?_⟩ <;> simp [eval_with_sampling, h1, h2, hg]
    · intro q hg
      simp [eval_with_sampling, h1, h2, hg]
  · intro q hq
    unfold eval_with_sampling at hq ⊢
    cases hr : (if e = "2 + 2 * 3" then some (8 : ℚ)
                else if e = "(2 + 3) * (4 + 5)" then some 45
                else g e) with
    | some r => simp [hr]
    | none => simp [hr] at hq

/-- Witness for claim C8: with a failing generic evaluator, the unknown
expression x raises the evaluation error, and the known expression still
evaluates to 8 by lookup. -/
theorem eval_with_sampling_spec_witness :
    (eval_with_sampling (fun _ => none) "x").1
      = .error ⟨-32603, "Cannot evaluate expression: x"⟩ ∧
    (eval_with_sampling (fun _ => none) "2 + 2 * 3").1 = .ok 8 := by
  refine ⟨?_, (eval_with_sampling_spec (fun _ => none) "x").1⟩
  exact (((eval_with_sampling_spec (fun _ => none) "x").2.2.1
    (by decide) (by decide)).1 rfl).1

/-! ## Claim C9 -/

/-- Claim C9: run_scenario fails fast, performing no protocol call, when
the scenario id is absent from the catalog or when the client id is not a
declared participant, printing the not-found and invalid-participant error
respectively; and client main exits with code 0 exactly when the executed
scenario passes and with code 1 otherwise. -/
theorem scenario_gate_and_exit (scenarios : List Scenario) (sid : Int)
    (cid : String) (body : Scenario → RunResult) :
    (findScenario sid scenarios = none →
       run_scenario scenarios sid cid body
         = { success := false
             calls := []
             errors := ["Error: Scenario " ++ toString sid ++ " not found"] } ∧
       client_main scenarios sid cid body = 1) ∧
    (∀ s, findScenario sid scenarios = some s →
       s.client_ids.contains cid = false →
       run_scenario scenarios sid cid body
         = { success := false
             calls := []
             errors := ["Error: Client ID \x27" ++ cid
                        ++ "\x27 not in scenario " ++ toString sid] } ∧
       client_main scenarios sid cid body = 1) ∧
    (client_main scenarios sid cid body
       = if (run_scenario scenarios sid cid body).success then 0 else 1) := by
  refine ⟨?_, ?_, ?_⟩
  · intro h
    constructor
    · unfold run_scenario
      simp [h]
    · unfold client_main
      simp [h]
  · intro s hs hc
    constructor
    · simp only [run_scenario, hs, hc]
      simp
    · simp only [client_main, run_scenario, hs, hc]
      simp
  · unfold client_main
    cases hf : findScenario sid scenarios with
    | none =>
        unfold run_scenario
        simp [hf]
    | some s => simp [hf]

/-- A one-scenario demonstration catalog and a body used by the witness. -/
def demoCatalog : List Scenario :=
  [{ id := 1, description := "demo", client_ids := ["client1"] }]

def demoBody : Scenario → RunResult :=
  fun _ => { success := true, calls := ["add"], errors := [] }

/-- Witness for claim C9: looking up the absent scenario 2 exits with code
1, and running scenario 1 as the undeclared participant client9 performs no
protocol call. -/
theorem scenario_gate_and_exit_witness :
    client_main demoCatalog 2 "client1" demoBody = 1 ∧
    (run_scenario demoCatalog 1 "client9" demoBody).calls = [] := by
  refine ⟨((scenario_gate_and_exit demoCatalog 2 "client1" demoBody).1
    (by decide)).2, ?_⟩
  have h := (scenario_gate_and_exit demoCatalog 1 "client9" demoBody).2.1
    { id := 1, description := "demo", client_ids := ["client1"] }
    (by decide) (by decide)
  rw [h.1]

/-! ## Claim C10 -/

theorem dictGet_eq_of_mem {κ α : Type} [DecidableEq κ] {k : κ} {v : α}
    {l : List (κ × α)} (hm : (k, v) ∈ l) (hnd : (l.map Prod.fst).Nodup) :
    dictGet k l = some v := by
  induction l with
  | nil => cases hm
  | cons p rest ih =>
      obtain ⟨k', v'⟩ := p
      rw [List.map_cons, List.nodup_cons] at hnd
      rcases List.mem_cons.mp hm with heq | hmem
      · cases heq
        simp [dictGet]
      · have hk : k' ≠ k := by
          intro hkk
          subst hkk
          exact hnd.1 (List.mem_map.mpr ⟨(k', v), hmem, rfl⟩)
        simp [dictGet, hk]
        exact ih hmem hnd.2

/-- Claim C10: whatever internal order the server completes the three
scenario 25 add calls in (any permutation of the issued requests), the
transport correlation delivers the results 3, 7, 11 in request-issuance
order. -/
theorem scenario25_ordering (completionOrder : List (Nat × Int × Int))
    (h : completionOrder.Perm scenario25_requests) :
    scenario25_run completionOrder = some [3, 7, 11] := by
  have hperm : (completionOrder.map responseFor).Perm
      (scenario25_requests.map responseFor) := h.map responseFor
  have hkeys : ((completionOrder.map responseFor).map Prod.fst).Nodup := by
    have hnd : ((scenario25_requests.map responseFor).map Prod.fst).Nodup := by
      decide
    exact ((hperm.map Prod.fst).nodup_iff).mpr hnd
  have h0 : dictGet 0 (completionOrder.map responseFor) = some 3 :=
    dictGet_eq_of_mem (hperm.mem_iff.mpr (by decide)) hkeys
  have h1 : dictGet 1 (completionOrder.map responseFor) = some 7 :=
    dictGet_eq_of_mem (hperm.mem_iff.mpr (by decide)) hkeys
  have h2 : dictGet 2 (completionOrder.map responseFor) = some 11 :=
    dictGet_eq_of_mem (hperm.mem_iff.mpr (by decide)) hkeys
  unfold scenario25_run
  simp [deliverInOrder, scenario25_requests, h0, h1, h2]

/-- Witness for claim C10: the completion order that finishes the third
call first and the first call second still delivers 3, 7, 11. -/
theorem scenario25_ordering_witness :
    scenario25_run [(2, 5, 6), (0, 1, 2), (1, 3, 4)] = some [3, 7, 11] := by
  exact scenario25_ordering [(2, 5, 6), (0, 1, 2), (1, 3, 4)] (by decide)

end MCP
